import Mathlib

/-
Verification of the CostLens SDK routing-and-resilience core against its
specification.

The development shallowly embeds the TypeScript source (the `CostLens` class
and the `QualityDetector` class) into Lean:

* JS strings are Lean `String`s; all string operations (lower-casing, trimming,
  substring search, regex-like keyword tests) are implemented by structural
  recursion over `List Char` so that concrete instances evaluate inside the
  kernel.  JS string lengths are UTF-16 code-unit counts; Lean counts
  characters — the two agree on the ASCII data handled here.
* JS numbers are embedded as `ℚ`.  Every numeric constant in the embedded code
  is a small decimal fraction and every arithmetic step stays well inside the
  exactly-representable range of IEEE doubles on the inputs considered by the
  theorems below, so exact rational arithmetic is a faithful model.
* `async` functions with no observable interleaving are embedded as pure
  functions; network collaborators (provider call, remote cache, prompt
  optimizer, routing-enabled check) are oracle parameters; `Date.now()` is an
  explicit `now : ℚ` parameter (milliseconds).
* A provider client is a function `Nat → String → Except JsError Resp`: the
  n-th provider invocation of the wrapped call, with the model it was given.
  The wrapper outcomes record the ordered list of models passed to the
  provider, which makes attempt-counting claims statable.
-/

set_option maxRecDepth 4000
set_option maxHeartbeats 1000000

/-! ## JS-style string primitives (structural recursion over `List Char`) -/

/-- Lower-case a string character-wise, as JS `String.prototype.toLowerCase`
does on ASCII data. -/
def lcStr (s : String) : String := String.mk (s.data.map Char.toLower)

/-- Whitespace test used for JS `trim` and `\s`. -/
def wsChar (c : Char) : Bool := c.isWhitespace

/-- JS `String.prototype.trim`. -/
def trimStr (s : String) : String :=
  String.mk (((s.data.dropWhile wsChar).reverse.dropWhile wsChar).reverse)

/-- Does `h` contain `p` as a contiguous sublist?  (JS `String.prototype.includes`.) -/
def containsSub : List Char → List Char → Bool
  | [], p => p.isEmpty
  | h :: t, p => p.isPrefixOf (h :: t) || containsSub t p

/-- JS `s.includes(pat)`. -/
def jsIncludes (s pat : String) : Bool := containsSub s.data pat.data

/-- Does `s` contain any of the given keywords?  This embeds JS regex tests of
the form `/kw1|kw2|.../.test(s)` (alternation of plain words). -/
def containsAny (s : String) (pats : List String) : Bool :=
  pats.any (fun p => jsIncludes s p)

/-- JS `s.endsWith(pat)`. -/
def endsWithStr (s pat : String) : Bool := pat.data.isSuffixOf s.data

/-- Piece collector for `splitRuns`: accumulating the current piece. -/
def splitRunsPiece (p : Char → Bool) (l : List Char) (acc : List Char) :
    List (List Char) :=
  match l with
  | [] => [acc.reverse]
  | c :: rest =>
    if p c then acc.reverse :: splitRunsDelim p rest
    else splitRunsPiece p rest (c :: acc)
where
  /-- Skips a maximal delimiter run, then starts the next piece. -/
  splitRunsDelim (p : Char → Bool) (l : List Char) : List (List Char) :=
    match l with
    | [] => [[]]
    | c :: rest =>
      if p c then splitRunsDelim p rest
      else splitRunsPiece p rest [c]

/-- JS `s.split(/X+/)` where `X` is a character class: splits on maximal runs
of delimiter characters, keeping the empty boundary pieces JS produces when
the string starts or ends with a delimiter run. -/
def splitRuns (p : Char → Bool) (l : List Char) : List (List Char) :=
  splitRunsPiece p l []

/-- Maximal runs of characters satisfying `p` (used for `\w+`-style extraction:
a maximal run is exactly what a greedy `\b\w{n,}\b` match captures). -/
def collectRuns (p : Char → Bool) (l : List Char) : List (List Char) :=
  (splitRuns (fun c => !(p c)) l).filter (fun r => !r.isEmpty)

/-- JS regex `\w`: ASCII letters, digits, underscore. -/
def isWordChar (c : Char) : Bool := c.isAlphanum || c == '_'

/-- Left word-boundary test for a match starting after character `prev`. -/
def boundaryL (prev : Option Char) : Bool :=
  match prev with
  | none => true
  | some c => !(isWordChar c)

/-- Right word-boundary test for a match followed by `rest`. -/
def boundaryR (rest : List Char) : Bool :=
  match rest with
  | [] => true
  | c :: _ => !(isWordChar c)

/-- Word-bounded substring search: embeds `/\bpat\b/.test(s)` for a literal
`pat`.  `prev` is the character just before the current position. -/
def containsSubWB (prev : Option Char) (l : List Char) (pat : List Char) : Bool :=
  let here := pat.isPrefixOf l && boundaryL prev && boundaryR (l.drop pat.length)
  match l with
  | [] => here
  | c :: rest => here || containsSubWB (some c) rest pat

/-- Does `s` match `/\b(p1|p2|...)\b/` for literal alternatives? -/
def testWordBounded (s : String) (pats : List String) : Bool :=
  pats.any (fun p => containsSubWB none s.data p.data)

/-- Four consecutive digits at the head (for `\d{4}`). -/
def fourDigits : List Char → Bool
  | a :: b :: c :: d :: _ => a.isDigit && b.isDigit && c.isDigit && d.isDigit
  | _ => false

/-- One position of the JS regex `/\d{4}|\d+%|\$\d+|\d+\.\d+/`: a match exists
somewhere iff one of these minimal windows occurs at some position. -/
def numericHere (l : List Char) : Bool :=
  fourDigits l
  || (match l with
      | a :: b :: _ => (a.isDigit && b == '%') || (a == '$' && b.isDigit)
      | _ => false)
  || (match l with
      | a :: b :: c :: _ => a.isDigit && b == '.' && c.isDigit
      | _ => false)

/-- Embeds `/\d{4}|\d+%|\$\d+|\d+\.\d+/.test(s)`. -/
def hasNumericPattern : List Char → Bool
  | [] => false
  | c :: rest => numericHere (c :: rest) || hasNumericPattern rest

/-- JS `Array.prototype.join(sep)`. -/
def joinWith (sep : String) : List String → String
  | [] => ""
  | [x] => x
  | x :: y :: rest => x ++ sep ++ joinWith sep (y :: rest)

/-- An apostrophe character, used to build phrase literals. -/
def apos : String := String.singleton (Char.ofNat 39)

/-! ## Data model -/

/-- A chat message: `{role, content}`.  Role and content are opaque strings
inspected only by substring/keyword tests, as in the source. -/
structure Message where
  role : String
  content : String
deriving DecidableEq, Repr

/-- Concatenation of the message contents with single-space separators, the
`messages.map(m => m.content).join(' ')` idiom pervasive in the source. -/
def joinedContents (messages : List Message) : String :=
  joinWith " " (messages.map (fun m => m.content))

/-- JSON string escaping.  Abstraction of `JSON.stringify` string escaping,
adequate for the ASCII data of this development (rare control characters other
than the named escapes are left unescaped). -/
def jsonEscChar (c : Char) : String :=
  if c == '"' then "\\\""
  else if c == '\\' then "\\\\"
  else if c == '\n' then "\\n"
  else if c == '\t' then "\\t"
  else if c == '\r' then "\\r"
  else String.singleton c

/-- A JSON string literal. -/
def jsonStrLit (s : String) : String :=
  "\"" ++ String.join (s.data.map jsonEscChar) ++ "\""

/-- JSON serialization of one message, `{"role":...,"content":...}` (the key
order of the message object literals used throughout the SDK). -/
def jsonMessage (m : Message) : String :=
  "\x7b\"role\":" ++ jsonStrLit m.role ++ ",\"content\":" ++ jsonStrLit m.content ++ "\x7d"

/-- Embeds `JSON.stringify(params.messages)`. -/
def jsonMessages (ms : List Message) : String :=
  "[" ++ joinWith "," (ms.map jsonMessage) ++ "]"

/-! ## QualityDetector (src quality module) -/

namespace QualityDetector

/-- Question words list from `measureCompleteness`. -/
def questionWords : List String :=
  ["what", "how", "why", "when", "where", "which", "who"]

/-- Does the trimmed string end in sentence punctuation?  (`/[.!?]$/`.) -/
def endsPunct (s : String) : Bool :=
  match s.data.reverse with
  | [] => false
  | c :: _ => c == '.' || c == '!' || c == '?'

/-- Embeds `QualityDetector.measureCompleteness`. -/
def measureCompleteness (response prompt : String) : ℚ :=
  if response.length < 10 then 0
  else
    let lengthQuot : ℚ := (response.length : ℚ) / ((max prompt.length 1 : ℕ) : ℚ)
    let s0 : ℚ := 3/10
    let s1 := if 1/2 < lengthQuot ∧ lengthQuot < 3 then s0 + 3/10 else s0
    let s2 := if 100 < response.length then s1 + 2/10 else s1
    let s3 := if 500 < response.length then s2 + 1/10 else s2
    let s4 :=
      if jsIncludes prompt "?" && containsAny (lcStr prompt) questionWords
          && decide (50 < response.length) then s3 + 2/10 else s3
    let s5 := if endsPunct (trimStr response) then s4 + 1/10 else s4
    let s6 :=
      if !(endsWithStr response "...") && !(jsIncludes response "[incomplete]")
          && !(jsIncludes response "[truncated]") then s5 + 1/10 else s5
    min 1 s6

/-- Embeds `QualityDetector.measureCoherence`. -/
def measureCoherence (response : String) : ℚ :=
  if response.length = 0 then 0
  else
    let s0 : ℚ := 1/2
    let sentences :=
      (splitRuns (fun c => c == '.' || c == '!' || c == '?') response.data).filter
        (fun piece => piece.any (fun c => !(wsChar c)))
    let s1 := if 2 ≤ sentences.length then s0 + 2/10 else s0
    let words := splitRuns wsChar (lcStr response).data
    let repQuot : ℚ := ((words.eraseDups).length : ℚ) / (words.length : ℚ)
    let s2 := if 7/10 < repQuot then s1 + 2/10 else s1
    let s3 :=
      if !(testWordBounded response ["the the", "and and", "is is"])
      then s2 + 1/10 else s2
    min 1 s3

/-- Embeds `QualityDetector.measureRelevance`. -/
def measureRelevance (response prompt : String) : ℚ :=
  if response.length = 0 ∨ prompt.length = 0 then 0
  else
    let promptLower := lcStr prompt
    let responseLower := lcStr response
    let keyTerms := (collectRuns isWordChar promptLower.data).filter (fun r => 4 ≤ r.length)
    let uniqueTerms := keyTerms.eraseDups
    let matched := uniqueTerms.filter (fun t => containsSub responseLower.data t)
    let relQuot : ℚ := (matched.length : ℚ) / ((max uniqueTerms.length 1 : ℕ) : ℚ)
    let s1 : ℚ := 3/10 + relQuot * (4/10)
    let s2 :=
      if jsIncludes promptLower "?" && decide (20 < responseLower.length)
      then s1 + 2/10 else s1
    let s3 :=
      if !(jsIncludes responseLower "i cannot")
          && !(jsIncludes responseLower ("i" ++ apos ++ "m sorry"))
      then s2 + 1/10 else s2
    min 1 s3

/-- Uncertainty phrases of `measureAccuracy` (all matched case-insensitively). -/
def uncertaintyPhrases : List String :=
  ["i" ++ apos ++ "m not sure", "i don" ++ apos ++ "t know", "might be wrong",
   "uncertain", "i think", "i believe", "probably", "maybe", "perhaps"]

/-- Confidence phrases of `measureAccuracy`. -/
def confidencePhrases : List String :=
  ["definitely", "certainly", "clearly", "obviously", "without a doubt",
   "absolutely", "precisely"]

/-- Embeds `QualityDetector.measureAccuracy`. -/
def measureAccuracy (response : String) : ℚ :=
  if response.length = 0 then 0
  else
    let rl := lcStr response
    let uncertaintyCount := (uncertaintyPhrases.filter (fun p => jsIncludes rl p)).length
    let confidenceCount := (confidencePhrases.filter (fun p => jsIncludes rl p)).length
    let s0 : ℚ := 6/10 - (uncertaintyCount : ℚ) * (1/10)
    let s1 := s0 + (confidenceCount : ℚ) * (5/100)
    let s2 :=
      if containsAny rl ["according to", "research shows", "studies indicate",
          "data shows", "evidence suggests"] then s1 + 15/100 else s1
    let s3 := if hasNumericPattern response.data then s2 + 1/10 else s2
    let s4 :=
      if containsAny rl ["typically", "generally", "often", "usually",
          "in most cases", "commonly"] then s3 + 8/100 else s3
    let s5 :=
      if !(containsAny rl ["always", "never", "all", "every", "none"])
      then s4 + 5/100 else s4
    let s6 := if 200 < response.length then s5 + 5/100 else s5
    let s7 := if 500 < response.length then s6 + 5/100 else s6
    min 1 (max 0 s7)

/-- The per-dimension metrics of `analyzeResponse`. -/
structure QualityMetrics where
  completeness : ℚ
  coherence : ℚ
  relevance : ℚ
  accuracy : ℚ
deriving Repr

/-- Result of `analyzeResponse`. -/
structure QualityReport where
  qualityScore : ℚ
  metrics : QualityMetrics
deriving Repr

/-- Embeds `QualityDetector.analyzeResponse`: the unweighted average of the
four heuristic metrics. -/
def analyzeResponse (response originalPrompt : String) : QualityReport :=
  let completeness := measureCompleteness response originalPrompt
  let coherence := measureCoherence response
  let relevance := measureRelevance response originalPrompt
  let accuracy := measureAccuracy response
  ⟨(completeness + coherence + relevance + accuracy) / 4,
   ⟨completeness, coherence, relevance, accuracy⟩⟩

/-- Result of `shouldRoute`. -/
structure RoutingDecision where
  shouldRoute : Bool
  targetModel : String
  confidence : ℚ
  reasoning : String
deriving Repr

/-- Embeds `QualityDetector.estimateComplexity` (the quality module version). -/
def estimateComplexity (messages : List Message) : ℚ :=
  let text := lcStr (joinedContents messages)
  let c0 : ℚ := 2/10
  let c1 := if 1000 < text.length then c0 + 3/10 else c0
  let c2 :=
    if containsAny text ["complex", "advanced", "detailed", "comprehensive"]
    then c1 + 4/10 else c1
  let c3 :=
    if containsAny text ["analyze", "evaluate", "compare", "critique"]
    then c2 + 3/10 else c2
  let c4 :=
    if containsAny text ["simple", "basic", "quick", "easy"]
    then c3 - 3/10 else c3
  max 0 (min 1 c4)

/-- Embeds `QualityDetector.detectTaskType` (the quality module version). -/
def detectTaskType (messages : List Message) : List String :=
  let text := lcStr (joinedContents messages)
  (if containsAny text ["simple", "basic", "quick", "easy", "straightforward"]
   then ["simple"] else [])
  ++ (if containsAny text ["code", "programming", "function"] then ["coding"] else [])
  ++ (if containsAny text ["write", "creative", "story"] then ["writing"] else [])

/-- Embeds `QualityDetector.isCritical`. -/
def isCritical (messages : List Message) : Bool :=
  containsAny (lcStr (joinedContents messages))
    ["critical", "important", "medical", "legal", "financial", "safety",
     "production", "accurate", "precise"]

/-- Embeds `QualityDetector.getOptimalSimpleModel`. -/
def getOptimalSimpleModel (requestedModel : String) (taskTypes : List String) : String :=
  if taskTypes.contains "coding" then "claude-3-haiku"
  else if taskTypes.contains "writing" then "gpt-3.5-turbo"
  else if taskTypes.contains "math" then "gpt-3.5-turbo"
  else
    let _ := requestedModel
    "gpt-3.5-turbo"

/-- Embeds `QualityDetector.getOptimalMediumModel`. -/
def getOptimalMediumModel (requestedModel : String) (taskTypes : List String) : String :=
  if taskTypes.contains "coding" && jsIncludes requestedModel "gpt-4"
  then "claude-3.5-sonnet"
  else if taskTypes.contains "writing" && jsIncludes requestedModel "gpt-4"
  then "claude-3.5-sonnet"
  else if taskTypes.contains "analysis" && requestedModel == "gpt-4"
  then "gpt-4o"
  else if jsIncludes requestedModel "claude-3-opus"
  then "claude-3.5-sonnet"
  else requestedModel

/-- Embeds `QualityDetector.shouldRoute`.  The `qualityThreshold` parameter is
declared (default `0.75` at the call sites that omit it) but never read by the
body, exactly as in the source. -/
def shouldRoute (requestedModel : String) (messages : List Message)
    (_qualityThreshold : ℚ) : RoutingDecision :=
  let complexity := estimateComplexity messages
  let taskType := detectTaskType messages
  let critical := isCritical messages
  if 8/10 < complexity ∨ critical then
    ⟨false, requestedModel, 9/10,
     if critical then "Critical task requires premium model"
     else "High complexity task requires premium model"⟩
  else if complexity < 3/10 then
    let t := getOptimalSimpleModel requestedModel taskType
    ⟨true, t, 85/100, "Simple task suitable for " ++ t⟩
  else if complexity < 6/10 then
    let t := getOptimalMediumModel requestedModel taskType
    ⟨t != requestedModel, t, 8/10,
     if t != requestedModel then "Medium complexity task can use " ++ t
     else "No suitable alternative found"⟩
  else
    ⟨false, requestedModel, 7/10, "Complex task requires original model"⟩

end QualityDetector

/-! ## CostLens core -/

namespace CostLens

/-- A provider-call error, `{status?: number, ...}`.  `tag` stands for the
identity of the JS error object (message etc.), so "rejects with the same
error" is a meaningful statement; the SDK itself inspects only `status`. -/
structure JsError where
  status : Option Nat
  tag : Nat
deriving DecidableEq, Repr

/-- OpenAI-shaped response message. -/
structure RespMessage where
  content : String
deriving DecidableEq, Repr

/-- One element of `choices`. -/
structure Choice where
  message : RespMessage
deriving DecidableEq, Repr

/-- OpenAI-shaped usage record. -/
structure Usage where
  prompt_tokens : ℚ
  completion_tokens : ℚ
  total_tokens : ℚ
deriving DecidableEq, Repr

/-- OpenAI-shaped provider response. -/
structure Resp where
  choices : List Choice
  usage : Option Usage
deriving DecidableEq, Repr

/-- Embeds `result.choices[0]?.message?.content || ''` (an empty content string
is falsy in JS and yields `''` as well, so the head-or-empty reading agrees). -/
def respText (r : Resp) : String :=
  match r.choices with
  | [] => ""
  | c :: _ => c.message.content

/-- Request parameters of a wrapped `create` call. -/
structure CreateParams where
  model : String
  messages : List Message
  temperature : Option ℚ
  max_tokens : Option ℚ
deriving DecidableEq, Repr

/-- Per-call wrapper options (the fields the embedded claims depend on;
`promptId`/`userId`/`requestId`/`correlationId` only feed the tracking record
and are omitted). -/
structure WrapperOpts where
  cacheTTL : Option ℚ
  fallbackModels : Option (List String)
  maxCost : Option ℚ

/-- The all-`none` options object (`options === undefined`). -/
def noOpts : WrapperOpts := ⟨none, none, none⟩

/-- The resolved `CostLensConfig` after the constructor applied its defaults.
Collaborator callbacks are embedded as total functions: a `routingPolicy`
returning `none` covers both a `null` result and a thrown error (both fall
through); a middleware returning `none` models a rejected middleware promise
(caught, previous value kept). -/
structure Config (α : Type) where
  enableCache : Bool
  maxRetries : Nat
  middlewareBefore : List (CreateParams → Option CreateParams)
  middlewareAfter : List (α → Option α)
  autoFallback : Bool
  smartRouting : Bool
  autoOptimize : Bool
  costLimit : Option ℚ
  routingPolicy : Option (String → List Message → Option String)
  qualityValidator : Option (String → String → ℚ)

/-- The constructor defaults: `enableCache: true, maxRetries: 3,
middleware: [], autoFallback: true, smartRouting: true`; the remaining fields
are left undefined by the constructor (falsy / absent). -/
def defaultConfig (α : Type) : Config α :=
  ⟨true, 3, [], [], true, true, false, none, none, none⟩

/-- JS truthiness of an optional numeric field (`undefined`, missing and `0`
are falsy). -/
def jsTruthyNum (o : Option ℚ) : Bool :=
  match o with
  | none => false
  | some q => decide (q ≠ 0)

/-- `this.config.maxRetries || 3` as used at every call site. -/
def resolveMaxRetries (cfg : Config α) : Nat :=
  if cfg.maxRetries = 0 then 3 else cfg.maxRetries

/-- Embeds `runMiddleware('before', params)`: sequential fold, a failing
middleware keeps the previous value. -/
def applyBeforeMW (mws : List (CreateParams → Option CreateParams))
    (p : CreateParams) : CreateParams :=
  mws.foldl (fun acc mw => (mw acc).getD acc) p

/-- Embeds `runMiddleware('after', result)`. -/
def applyAfterMW (mws : List (α → Option α)) (r : α) : α :=
  mws.foldl (fun acc mw => (mw acc).getD acc) r

/-! ### Pricing and cost estimation -/

/-- The static price table of `getModelPricing`, in declaration order
(dollars per million tokens, `(key, input, output)`). -/
def pricingTable : List (String × ℚ × ℚ) :=
  [("gpt-4o", 25/10, 10), ("gpt-4", 30, 60), ("gpt-4-turbo", 10, 30),
   ("gpt-3.5-turbo", 5/10, 15/10),
   ("claude-3.5-sonnet", 3, 3), ("claude-3-opus", 15, 75),
   ("claude-3-sonnet", 3, 15), ("claude-3-haiku", 25/100, 125/100),
   ("gemini-1.5-flash", 1, 1), ("gemini-1.5-pro", 125/100, 5),
   ("deepseek-v3", 28/100, 42/100), ("deepseek-r1", 28/100, 42/100),
   ("deepseek-chat", 28/100, 42/100), ("deepseek-reasoner", 28/100, 42/100)]

/-- First table entry whose key is a substring of the model identifier;
default `{input: 1.0, output: 1.0}`. -/
def firstPricing : List (String × ℚ × ℚ) → String → ℚ × ℚ
  | [], _ => (1, 1)
  | (k, pIn, pOut) :: rest, model =>
    if jsIncludes model k then (pIn, pOut) else firstPricing rest model

/-- Embeds `getModelPricing`. -/
def getModelPricing (model : String) : ℚ × ℚ := firstPricing pricingTable model

/-- Embeds `estimateTokens(messages, type)`:
`ceil(joinedLength / 4) + 4 * messageCount`, scaled by `ceil(· * 0.3)` for the
output direction, floored at 1 in both directions. -/
def estimateTokens (messages : List Message) (isOutput : Bool) : ℚ :=
  let content := joinedContents messages
  let base : ℤ := ⌈((content.length : ℚ) / 4)⌉ + 4 * messages.length
  let t : ℤ := if isOutput then ⌈((base : ℚ) * (3/10))⌉ else base
  max (t : ℚ) 1

/-- Embeds `estimateCost(model, messages)`. -/
def estimateCost (model : String) (messages : List Message) : ℚ :=
  let inputTokens := estimateTokens messages false
  let outputTokens := estimateTokens messages true
  let pricing := getModelPricing model
  inputTokens / 1000000 * pricing.1 + outputTokens / 1000000 * pricing.2

/-! ### Routing -/

/-- The three-way complexity classification of the `CostLens` class
(distinct from the numeric `QualityDetector.estimateComplexity`). -/
inductive Complexity where
  | simple : Complexity
  | medium : Complexity
  | complex : Complexity
deriving DecidableEq, Repr

/-- Embeds the `CostLens.estimateComplexity` method. -/
def estimateComplexity (messages : List Message) : Complexity :=
  let totalLength := (messages.map (fun m => m.content.length)).sum
  let hasSystemPrompt := messages.any (fun m => m.role == "system")
  let messageCount := messages.length
  if totalLength < 100 ∧ hasSystemPrompt = false ∧ messageCount ≤ 2 then .simple
  else if totalLength < 500 ∧ messageCount ≤ 5 then .medium
  else .complex

/-- Embeds the `CostLens.detectTaskType` method (the wrapper version, with
more keyword classes than the quality module version). -/
def detectTaskType (messages : List Message) : List String :=
  let text := lcStr (joinedContents messages)
  (if containsAny text ["code", "programming", "function", "debug", "algorithm"]
   then ["coding"] else [])
  ++ (if containsAny text ["write", "creative", "story", "article", "content"]
      then ["writing"] else [])
  ++ (if containsAny text ["analyze", "research", "evaluate", "compare"]
      then ["analysis"] else [])
  ++ (if containsAny text ["translate", "language"] then ["translation"] else [])
  ++ (if containsAny text ["math", "calculate", "solve", "equation"]
      then ["math"] else [])
  ++ (if containsAny text ["simple", "basic", "quick", "easy"]
      then ["simple"] else [])

/-- Embeds `selectOptimalModel`.  The JS nested `if (includes('gpt')) {...}`
blocks fall through to the next block when no inner rule fires; the chain
below conjoins each inner rule with its enclosing guard, which is equivalent.
A routing policy answer of `""` is falsy in JS and falls through, as modeled. -/
def selectOptimalModel (cfg : Config α) (requestedModel : String)
    (messages : List Message) : String :=
  if cfg.smartRouting = false then requestedModel
  else
    let policyAnswer : Option String :=
      match cfg.routingPolicy with
      | some policy =>
        match policy requestedModel messages with
        | some routed => if routed == "" then none else some routed
        | none => none
      | none => none
    match policyAnswer with
    | some routed => routed
    | none =>
      if jsIncludes requestedModel "vision" then requestedModel
      else
        let complexity := estimateComplexity messages
        let taskType := detectTaskType messages
        if jsIncludes requestedModel "gpt" && (complexity == .simple)
            && jsIncludes requestedModel "gpt-4" then "gpt-3.5-turbo"
        else if jsIncludes requestedModel "gpt" && (complexity == .medium)
            && (requestedModel == "gpt-4") then "gpt-4o"
        else if jsIncludes requestedModel "gpt" && taskType.contains "coding"
            && jsIncludes requestedModel "gpt-4" then "claude-3.5-sonnet"
        else if jsIncludes requestedModel "claude" && (complexity == .simple)
            && jsIncludes requestedModel "claude-3-opus" then "claude-3-haiku"
        else if jsIncludes requestedModel "claude" && (complexity == .medium)
            && jsIncludes requestedModel "claude-3-opus" then "claude-3.5-sonnet"
        else if jsIncludes requestedModel "claude" && (complexity == .simple)
            && jsIncludes requestedModel "claude-3-sonnet" then "claude-3-haiku"
        else
          let rd := QualityDetector.shouldRoute requestedModel messages (8/10)
          if rd.shouldRoute && decide (8/10 < rd.confidence) then rd.targetModel
          else requestedModel

/-- The static fallback-chain table of `getDefaultFallbacks`, in declaration
order. -/
def fallbackTable : List (String × List String) :=
  [("gpt-4o", ["gpt-4-turbo", "claude-3.5-sonnet", "gpt-3.5-turbo"]),
   ("claude-3.5-sonnet", ["gpt-4o", "claude-3-sonnet", "gpt-3.5-turbo"]),
   ("gemini-1.5-flash", ["gemini-1.5-pro", "gpt-3.5-turbo", "claude-3-haiku"]),
   ("gpt-4", ["gpt-4o", "gpt-4-turbo", "gpt-3.5-turbo"]),
   ("gpt-4-turbo", ["gpt-4o", "gpt-4", "gpt-3.5-turbo"]),
   ("gpt-3.5-turbo", ["gpt-4o", "gemini-1.5-flash", "claude-3-haiku"]),
   ("claude-3-opus", ["claude-3.5-sonnet", "claude-3-sonnet", "gpt-4o"]),
   ("claude-3-sonnet", ["claude-3.5-sonnet", "claude-3-haiku", "gpt-3.5-turbo"]),
   ("claude-3-haiku", ["gpt-3.5-turbo", "gemini-1.5-flash", "claude-3-sonnet"]),
   ("gemini-1.5-pro", ["gemini-1.5-flash", "gpt-4o", "gpt-3.5-turbo"]),
   ("deepseek-v3", ["deepseek-chat", "deepseek-reasoner", "gemini-1.5-flash", "gpt-3.5-turbo"]),
   ("deepseek-r1", ["deepseek-chat", "deepseek-reasoner", "gemini-1.5-flash", "gpt-3.5-turbo"]),
   ("deepseek-chat", ["deepseek-reasoner", "deepseek-v3", "gemini-1.5-flash", "gpt-3.5-turbo"]),
   ("deepseek-reasoner", ["deepseek-chat", "deepseek-v3", "gemini-1.5-flash", "gpt-3.5-turbo"])]

/-- First fallback-table entry whose key is a substring of the model; `[]`
otherwise. -/
def firstFallback : List (String × List String) → String → List String
  | [], _ => []
  | (k, v) :: rest, model =>
    if jsIncludes model k then v else firstFallback rest model

/-- Embeds `getDefaultFallbacks`. -/
def getDefaultFallbacks (model : String) : List String :=
  firstFallback fallbackTable model

/-- Result of `calculateSavings`. -/
structure SavingsReport where
  currentCost : ℚ
  optimizedCost : ℚ
  savings : ℚ
  savingsPercentage : ℚ
  recommendedModel : String
deriving Repr

/-- Embeds `calculateSavings(requestedModel, messages)`. -/
def calculateSavings (cfg : Config α) (requestedModel : String)
    (messages : List Message) : SavingsReport :=
  let currentCost := estimateCost requestedModel messages
  let recommendedModel := selectOptimalModel cfg requestedModel messages
  let optimizedCost := estimateCost recommendedModel messages
  let savings := currentCost - optimizedCost
  let savingsPercentage := if 0 < currentCost then savings / currentCost * 100 else 0
  ⟨currentCost, optimizedCost, savings, savingsPercentage, recommendedModel⟩

/-! ### Cache keys and the in-memory cache -/

/-- The fields `getCacheKey` normalizes (`model`, optional `messages`,
optional `temperature`, optional `max_tokens`). -/
structure CacheKeyParams where
  model : String
  messages : Option (List Message)
  temperature : Option ℚ
  max_tokens : Option ℚ

/-- Rendering of a JS number inside the serialized key.  Abstraction of JS
number printing; the development relies only on equal numbers rendering
equally (which any function gives) — no claim depends on the digits. -/
def numToStr (q : ℚ) : String := toString q.num ++ "/" ++ toString q.den

/-- Embeds `params.temperature || 0.7` (temperature `0` is falsy in JS and is
replaced by the `0.7` default). -/
def jsOrDefaultTemp (t : Option ℚ) : ℚ :=
  match t with
  | none => 7/10
  | some q => if q = 0 then 7/10 else q

/-- Embeds `getCacheKey(provider, params)`: the serialized normalized object
`{model, messages (roles kept, string contents trimmed), temperature
(defaulted), max_tokens}`, with `undefined`-valued keys omitted as
`JSON.stringify` does. -/
def getCacheKey (provider : String) (params : CacheKeyParams) : String :=
  let parts : List String :=
    ["\"model\":" ++ jsonStrLit params.model]
    ++ (match params.messages with
        | none => []
        | some ms =>
          ["\"messages\":" ++ jsonMessages (ms.map (fun m => ⟨m.role, trimStr m.content⟩))])
    ++ ["\"temperature\":" ++ numToStr (jsOrDefaultTemp params.temperature)]
    ++ (match params.max_tokens with
        | none => []
        | some q => ["\"max_tokens\":" ++ numToStr q])
  provider ++ ":" ++ "\x7b" ++ joinWith "," parts ++ "\x7d"

/-- A cache entry: `{result, timestamp, ttl, lastAccessed?}` (milliseconds). -/
structure CacheEntry (α : Type) where
  result : α
  timestamp : ℚ
  ttl : ℚ
  lastAccessed : Option ℚ

/-- The in-memory cache: a JS `Map` in insertion order. -/
abbrev Cache (α : Type) := List (String × CacheEntry α)

/-- `Map.get`. -/
def cacheLookup (c : Cache α) (k : String) : Option (CacheEntry α) :=
  (c.find? (fun p => p.1 == k)).map (fun p => p.2)

/-- `Map.delete`. -/
def cacheErase (c : Cache α) (k : String) : Cache α :=
  c.filter (fun p => p.1 != k)

/-- `Map.set`: an existing key keeps its insertion position, a new key is
appended. -/
def cacheSetEntry (c : Cache α) (k : String) (e : CacheEntry α) : Cache α :=
  if c.any (fun p => p.1 == k) then
    c.map (fun p => if p.1 == k then (k, e) else p)
  else c ++ [(k, e)]

/-- Embeds `getFromCache(key)`: miss if absent; expire-and-delete if
`now - timestamp > ttl`; otherwise a hit that refreshes `lastAccessed`.
Returns the JS return value together with the mutated cache. -/
def getFromCache (c : Cache α) (k : String) (now : ℚ) : Option α × Cache α :=
  match cacheLookup c k with
  | none => (none, c)
  | some entry =>
    if entry.ttl < now - entry.timestamp then (none, cacheErase c k)
    else (some entry.result,
          cacheSetEntry c k ⟨entry.result, entry.timestamp, entry.ttl, some now⟩)

/-- `maxCacheSize` of `setCache`. -/
def maxCacheSize : Nat := 1000

/-- `Math.floor(maxCacheSize * 0.2)`, the number of entries evicted. -/
def evictCount : Nat := (⌊(maxCacheSize : ℚ) * (2/10)⌋).toNat

/-- The LRU comparator `(a.lastAccessed || 0) - (b.lastAccessed || 0)` as a
`≤`-test; `Array.prototype.sort` is stable, as is `List.mergeSort`. -/
def lruOrder (a b : String × CacheEntry α) : Bool :=
  decide ((a.2.lastAccessed.getD 0) ≤ (b.2.lastAccessed.getD 0))

/-- Embeds `setCache(key, result, ttl)`: when the entry count has reached
`maxCacheSize`, the `evictCount` entries with the oldest `lastAccessed` are
deleted before inserting. -/
def setCache (c : Cache α) (k : String) (result : α) (ttl : ℚ) (now : ℚ) :
    Cache α :=
  let c1 :=
    if maxCacheSize ≤ c.length then
      let doomed := ((c.mergeSort lruOrder).take evictCount).map (fun p => p.1)
      c.filter (fun p => !(doomed.contains p.1))
    else c
  cacheSetEntry c1 k ⟨result, now, ttl, some now⟩

/-- The default `ttl` parameter value of `setCache` (3600000 ms), also the
`options?.cacheTTL ?? 3600000` default of the OpenAI wrapper. -/
def defaultCacheTTL : ℚ := 3600000

/-- A `setCache` call that omits the `ttl` argument. -/
def setCacheDefault (c : Cache α) (k : String) (result : α) (now : ℚ) : Cache α :=
  setCache c k result defaultCacheTTL now

/-! ### Retry with backoff -/

/-- Outcome of `retryWithBackoff`: the value or the thrown error (`none` for
the `undefined` thrown when zero iterations ran), the number of times the
operation was invoked, and the backoff delays awaited (milliseconds,
`2^attemptIndex * 1000`). -/
structure RetryOut (α : Type) where
  result : Except (Option JsError) α
  attempts : Nat
  waits : List ℚ
deriving Repr

/-- The `error?.status >= 400 && error?.status < 500` client-error test. -/
def is4xx (e : JsError) : Bool :=
  match e.status with
  | some s => decide (400 ≤ s) && decide (s < 500)
  | none => false

/-- The `for (let i = 0; i < retries; i++)` loop of `retryWithBackoff`,
entered at index `i` with `fuel = retries - i` iterations left. -/
def retryGo (op : Nat → Except JsError α) (retries : Nat) (i : Nat) :
    Nat → RetryOut α
  | 0 => ⟨.error none, 0, []⟩
  | fuel + 1 =>
    match op i with
    | .ok a => ⟨.ok a, 1, []⟩
    | .error e =>
      if is4xx e then ⟨.error (some e), 1, []⟩
      else if i = retries - 1 then ⟨.error (some e), 1, []⟩
      else
        let r := retryGo op retries (i + 1) fuel
        ⟨r.result, r.attempts + 1, ((2 : ℚ) ^ i * 1000) :: r.waits⟩

/-- Embeds `retryWithBackoff(fn, retries)`.  The operation is indexed by the
attempt number so that attempt-dependent behavior (fail once, then succeed)
is expressible. -/
def retryWithBackoff (op : Nat → Except JsError α) (retries : Nat) : RetryOut α :=
  retryGo op retries 0 retries

/-! ### Tracking circuit breaker -/

/-- The process-wide breaker state `{apiFailureCount, lastApiFailure}`. -/
structure BreakerState where
  apiFailureCount : Nat
  lastApiFailure : ℚ
deriving DecidableEq, Repr

/-- `circuitBreakerThreshold = 5`. -/
def circuitBreakerThreshold : Nat := 5

/-- `circuitBreakerTimeout = 60000` ms. -/
def circuitBreakerTimeout : ℚ := 60000

/-- Embeds `isApiDown()`. -/
def isApiDown (s : BreakerState) (now : ℚ) : Bool :=
  decide (circuitBreakerThreshold ≤ s.apiFailureCount)
    && decide (now - s.lastApiFailure < circuitBreakerTimeout)

/-- Outcome of one tracking `fetch`: `ok` is a 2xx response, `httpError s` a
non-2xx response with status `s`, `netError` a rejected fetch (network
failure or the 5-second abort). -/
inductive SinkOutcome where
  | ok : SinkOutcome
  | httpError (status : Nat) : SinkOutcome
  | netError : SinkOutcome
deriving DecidableEq, Repr

/-- Result of one `trackRun` attempt: the new breaker state and whether the
tracking sink was invoked at all. -/
structure TrackAttempt where
  state : BreakerState
  invoked : Bool
deriving Repr

/-- Embeds `trackRun` (part_006 generation), restricted to its observable
effect on the breaker state and on the sink.  A 401/403 response takes the
same `recordApiFailure` path as any other non-2xx response — the source logs
a different warning for it but sets no flag. -/
def trackRun (s : BreakerState) (now : ℚ) (sink : SinkOutcome) : TrackAttempt :=
  if isApiDown s now then ⟨s, false⟩
  else
    match sink with
    | .ok => ⟨⟨0, s.lastApiFailure⟩, true⟩
    | .httpError _ => ⟨⟨s.apiFailureCount + 1, now⟩, true⟩
    | .netError => ⟨⟨s.apiFailureCount + 1, now⟩, true⟩

/-! ### The wrapped `create` calls

The wrapper flows below return the call result, the ordered list of models
handed to the provider (one element per provider invocation; the provider
oracle is indexed accordingly), and the resulting in-memory cache.  The
fire-and-forget side channels (tracking, remote cache write, console logs)
cannot influence the result or the provider invocations — `trackRun` wraps
everything in `try/catch` — and are modeled separately (`trackRun` above) or
not at all. -/

/-- How a wrapped call can reject: the synchronous cost-limit `Error`, or a
propagated provider error (`none` for a JS `undefined` thrown when
`retryWithBackoff` ran zero iterations). -/
inductive CreateFailure where
  | costLimit : CreateFailure
  | apiError (e : Option JsError) : CreateFailure
deriving DecidableEq, Repr

/-- Observable outcome of a wrapped `create` call. -/
structure WrapOutcome (α : Type) where
  result : Except CreateFailure α
  calls : List String
  cache : Cache α

/-- Embeds the cost-limit gate `if (options?.maxCost || self.config.costLimit)
{ ... }` with its `options?.maxCost || self.config.costLimit || Infinity`
limit resolution (`0` being falsy at each step; `none` below stands for
`Infinity`, which no estimate exceeds). -/
def costGate (cfg : Config α) (opts : WrapperOpts) (model : String)
    (messages : List Message) : Bool :=
  if jsTruthyNum opts.maxCost || jsTruthyNum cfg.costLimit then
    let limit : Option ℚ :=
      if jsTruthyNum opts.maxCost then opts.maxCost
      else if jsTruthyNum cfg.costLimit then cfg.costLimit
      else none
    match limit with
    | some l => decide (l < estimateCost model messages)
    | none => false
  else false

/-- The score the OpenAI wrapper's quality gate computes: the caller-injected
validator when configured, else the default scorer applied to the response
text and `JSON.stringify(params.messages)`. -/
def qualityScoreOf (cfg : Config Resp) (responseText messagesJson : String) : ℚ :=
  match cfg.qualityValidator with
  | some v => v responseText messagesJson
  | none => (QualityDetector.analyzeResponse responseText messagesJson).qualityScore

/-- The cache-store and return step of the OpenAI wrapper (the remote cache
write is fire-and-forget and unobservable here). -/
def openaiFinish (cfg : Config Resp) (opts : WrapperOpts) (params3 : CreateParams)
    (cache1 : Cache Resp) (now : ℚ) (processed : Resp) (usedModel : String)
    (calls : List String) : WrapOutcome Resp :=
  let cache2 :=
    if cfg.enableCache || jsTruthyNum opts.cacheTTL then
      setCache cache1
        (getCacheKey "openai" ⟨usedModel, some params3.messages, none, none⟩)
        processed (opts.cacheTTL.getD defaultCacheTTL) now
    else cache1
  ⟨.ok processed, calls, cache2⟩

/-- The post-success step of the OpenAI wrapper: after-middleware, then the
quality gate when the used model differs from the requested one.  A failing
quality gate re-issues the call once against the original model and returns
that second result directly (skipping caching and tracking), exactly as the
source does. -/
def openaiSuccess (cfg : Config Resp) (provider : Nat → String → Except JsError Resp)
    (originalModel : String) (params3 : CreateParams) (opts : WrapperOpts)
    (cache1 : Cache Resp) (now : ℚ) (r : Resp) (usedModel : String)
    (calls : List String) : WrapOutcome Resp :=
  let processed := applyAfterMW cfg.middlewareAfter r
  if originalModel != usedModel then
    let score := qualityScoreOf cfg (respText processed) (jsonMessages params3.messages)
    if score < 7/10 then
      match provider calls.length originalModel with
      | .ok r2 =>
        ⟨.ok (applyAfterMW cfg.middlewareAfter r2), calls ++ [originalModel], cache1⟩
      | .error e2 =>
        ⟨.error (.apiError (some e2)), calls ++ [originalModel], cache1⟩
    else openaiFinish cfg opts params3 cache1 now processed usedModel calls
  else openaiFinish cfg opts params3 cache1 now processed usedModel calls

/-- The `shouldTryFallback` test
`!(error as any)?.status || (error as any).status >= 500`
(a missing error, a missing status and a `0` status are all falsy). -/
def shouldTryFallback (e : Option JsError) : Bool :=
  match e with
  | none => true
  | some er =>
    match er.status with
    | none => true
    | some s => s == 0 || decide (500 ≤ s)

/-- The single-attempt-per-model fallback loop of the OpenAI wrapper.
Returns the first success with its model, the models actually attempted and
the last error encountered in the loop. -/
def fallbackLoop (provider : Nat → String → Except JsError α) (base : Nat) :
    List String → Option (α × String) × List String × Option JsError
  | [] => (none, [], none)
  | m :: rest =>
    match provider base m with
    | .ok r => (some (r, m), [m], none)
    | .error e =>
      let (res, ms, le) := fallbackLoop provider (base + 1) rest
      (res, m :: ms, some (le.getD e))

/-- The provider-calling phase of the OpenAI wrapper: retry on the resolved
model, then — only for fallback-eligible errors — at most
`min(fallbackModels.length, maxRetries)` single fallback attempts; a missing
result rethrows the last error. -/
def openaiCallPhase (cfg : Config Resp) (provider : Nat → String → Except JsError Resp)
    (originalModel : String) (params3 : CreateParams) (opts : WrapperOpts)
    (cache1 : Cache Resp) (now : ℚ) : WrapOutcome Resp :=
  let mr := resolveMaxRetries cfg
  let fbs := opts.fallbackModels.getD
    (if cfg.autoFallback then getDefaultFallbacks params3.model else [])
  let prim := retryWithBackoff (fun i => provider i params3.model) mr
  let primCalls := List.replicate prim.attempts params3.model
  match prim.result with
  | .ok r =>
    openaiSuccess cfg provider originalModel params3 opts cache1 now r
      params3.model primCalls
  | .error e =>
    if cfg.autoFallback && !fbs.isEmpty && shouldTryFallback e then
      let step := fallbackLoop provider prim.attempts (fbs.take (min fbs.length mr))
      match step.1 with
      | some (r, um) =>
        openaiSuccess cfg provider originalModel params3 opts cache1 now r um
          (primCalls ++ step.2.1)
      | none =>
        ⟨.error (.apiError (match step.2.2 with | some x => some x | none => e)),
         primCalls ++ step.2.1, cache1⟩
    else ⟨.error (.apiError e), primCalls, cache1⟩

/-- Embeds the wrapped OpenAI `chat.completions.create` call (part_006
generation).  Oracles: `routingEnabled` is the answer of the
`checkRoutingEnabled()` backend call; `optimizer` is the prompt-optimization
collaborator (identity when it fails); `remote` is the remote-cache lookup
(`none` covering a miss, a non-Node environment and a failed request);
`provider` is the underlying client, indexed by invocation count. -/
def openaiCreate (cfg : Config Resp) (routingEnabled : Bool)
    (optimizer : String → String) (remote : Option Resp)
    (provider : Nat → String → Except JsError Resp) (params : CreateParams)
    (opts : WrapperOpts) (cache : Cache Resp) (now : ℚ) : WrapOutcome Resp :=
  let params1 :=
    if cfg.autoOptimize then
      ⟨params.model, params.messages.map (fun m => ⟨m.role, optimizer m.content⟩),
       params.temperature, params.max_tokens⟩
    else params
  let originalModel := params1.model
  let params2 :=
    if cfg.smartRouting && routingEnabled then
      ⟨selectOptimalModel cfg params1.model params1.messages, params1.messages,
       params1.temperature, params1.max_tokens⟩
    else params1
  if costGate cfg opts params2.model params2.messages then
    ⟨.error .costLimit, [], cache⟩
  else
    let cacheStep :=
      if cfg.enableCache || jsTruthyNum opts.cacheTTL then
        getFromCache cache
          (getCacheKey "openai" ⟨params2.model, some params2.messages, none, none⟩) now
      else (none, cache)
    match cacheStep with
    | (some r, cache1) => ⟨.ok r, [], cache1⟩
    | (none, cache1) =>
      match (if cfg.enableCache then remote else none) with
      | some r => ⟨.ok r, [], cache1⟩
      | none =>
        let params3 := applyBeforeMW cfg.middlewareBefore params2
        openaiCallPhase cfg provider originalModel params3 opts cache1 now

/-- The model loop of the Anthropic wrapper: `[model, ...fallbackModels]`,
each driven through `retryWithBackoff`; a failure that is not on the last
model logs and moves on — for every error, 4xx included. -/
def anthropicModels (provider : Nat → String → Except JsError α) (retries : Nat)
    (base : Nat) : List String → Except (Option JsError) (α × String) × List String
  | [] => (.error none, [])
  | m :: rest =>
    let r := retryWithBackoff (fun i => provider (base + i) m) retries
    let myCalls := List.replicate r.attempts m
    match r.result with
    | .ok a => (.ok (a, m), myCalls)
    | .error e =>
      match rest with
      | [] => (.error e, myCalls)
      | _ :: _ =>
        let step := anthropicModels provider retries (base + r.attempts) rest
        (step.1, myCalls ++ step.2)

/-- Embeds the wrapped Anthropic `messages.create` call (part_006
generation).  It routes without the `checkRoutingEnabled` gate, keys its
cache on the full params (temperature and `max_tokens` included), and only
stores to the cache when the caller passed a `cacheTTL`. -/
def anthropicCreate (cfg : Config α) (provider : Nat → String → Except JsError α)
    (params : CreateParams) (opts : WrapperOpts) (cache : Cache α) (now : ℚ) :
    WrapOutcome α :=
  let params1 :=
    if cfg.smartRouting then
      ⟨selectOptimalModel cfg params.model params.messages, params.messages,
       params.temperature, params.max_tokens⟩
    else params
  if costGate cfg opts params1.model params1.messages then
    ⟨.error .costLimit, [], cache⟩
  else
    let cacheStep :=
      if cfg.enableCache then
        getFromCache cache
          (getCacheKey "anthropic"
            ⟨params1.model, some params1.messages, params1.temperature,
             params1.max_tokens⟩) now
      else (none, cache)
    match cacheStep with
    | (some r, cache1) => ⟨.ok r, [], cache1⟩
    | (none, cache1) =>
      let params2 := applyBeforeMW cfg.middlewareBefore params1
      let fbs := opts.fallbackModels.getD
        (if cfg.autoFallback then getDefaultFallbacks params2.model else [])
      let step := anthropicModels provider (resolveMaxRetries cfg) 0
        (params2.model :: fbs)
      match step.1 with
      | .ok (a, _) =>
        let processed := applyAfterMW cfg.middlewareAfter a
        let cache2 :=
          if cfg.enableCache && jsTruthyNum opts.cacheTTL then
            setCache cache1
              (getCacheKey "anthropic"
                ⟨params2.model, some params2.messages, params2.temperature,
                 params2.max_tokens⟩)
              processed (opts.cacheTTL.getD defaultCacheTTL) now
          else cache1
        ⟨.ok processed, step.2, cache2⟩
      | .error e => ⟨.error (.apiError e), step.2, cache1⟩

end CostLens

/-! ## Specification-side formulas

These definitions follow the wording of the specification claims (not the
source); they exist to be compared against the embedded code. -/

/-- Input tokens as the cost-estimation claim words them:
`⌈totalCharacterCount/4⌉ + 4×messageCount`, where `totalCharacterCount` is
read as the total character count of the message contents, with no floor. -/
def specClaimInputTokens (messages : List Message) : ℤ :=
  ⌈(((messages.map (fun m => m.content.length)).sum : ℚ) / 4)⌉ + 4 * messages.length

/-- Output tokens as the claim words them: `⌈inputTokens × 0.3⌉` floored
at 1. -/
def specClaimOutputTokens (messages : List Message) : ℤ :=
  max 1 ⌈((specClaimInputTokens messages : ℚ)) * (3/10)⌉

/-- The claimed cost formula
`inputTokens/10⁶ × inputPrice + outputTokens/10⁶ × outputPrice` over the
(correctly described) price table. -/
def specClaimEstimateCost (model : String) (messages : List Message) : ℚ :=
  ((specClaimInputTokens messages : ℚ)) / 1000000 * (CostLens.getModelPricing model).1
    + ((specClaimOutputTokens messages : ℚ)) / 1000000 * (CostLens.getModelPricing model).2

/-- Input tokens as the amended claim words them: the character count `L` of
the contents joined with single spaces (so `messageCount - 1` separator
characters are included), `max 1 (⌈L/4⌉ + 4×messageCount)`. -/
def specAmendedInputTokens (messages : List Message) : ℤ :=
  max 1 (⌈(((joinedContents messages).length : ℚ) / 4)⌉ + 4 * messages.length)

/-- Output tokens of the amended claim: `⌈inputTokens × 0.3⌉` floored at 1,
with `inputTokens` the amended input-token count. -/
def specAmendedOutputTokens (messages : List Message) : ℤ :=
  max 1 ⌈((specAmendedInputTokens messages : ℚ)) * (3/10)⌉

/-- The amended cost formula. -/
def specAmendedEstimateCost (model : String) (messages : List Message) : ℚ :=
  ((specAmendedInputTokens messages : ℚ)) / 1000000 * (CostLens.getModelPricing model).1
    + ((specAmendedOutputTokens messages : ℚ)) / 1000000 * (CostLens.getModelPricing model).2

/-! ### Concrete data used by witness theorems -/

/-- A resolved config whose caller-injected quality validator always scores 0
(otherwise the constructor defaults). -/
def qgwCfg : CostLens.Config CostLens.Resp :=
  ⟨true, 3, [], [], true, true, false, none, none, some (fun _ _ => 0)⟩

/-- Response of the routed (cheap) model in the witness scenario. -/
def qgwRespA : CostLens.Resp := ⟨[⟨⟨"cheap answer"⟩⟩], none⟩

/-- Response of the originally requested model in the witness scenario. -/
def qgwRespB : CostLens.Resp := ⟨[⟨⟨"better answer"⟩⟩], none⟩

/-- A provider whose first invocation returns `qgwRespA` and whose later
invocations return `qgwRespB`. -/
def qgwProvider : Nat → String → Except CostLens.JsError CostLens.Resp :=
  fun n _ => if n = 0 then .ok qgwRespA else .ok qgwRespB

/-! ## Helper lemmas -/

namespace CostLens

/-- Unfolding: a loop that may run zero iterations throws `undefined`. -/
lemma retryGo_zero {α : Type} (op : Nat → Except JsError α) (retries i : Nat) :
    retryGo op retries i 0 = ⟨.error none, 0, []⟩ := rfl

/-- Unfolding: a successful attempt returns at once. -/
lemma retryGo_succ_ok {α : Type} {op : Nat → Except JsError α} {retries i n : Nat}
    {a : α} (h : op i = .ok a) :
    retryGo op retries i (n + 1) = ⟨.ok a, 1, []⟩ := by
  simp [retryGo, h]

/-- Unfolding: a client error is rethrown at once. -/
lemma retryGo_succ_4xx {α : Type} {op : Nat → Except JsError α} {retries i n : Nat}
    {e : JsError} (h : op i = .error e) (h4 : is4xx e = true) :
    retryGo op retries i (n + 1) = ⟨.error (some e), 1, []⟩ := by
  simp [retryGo, h, h4]

/-- Unfolding: the last attempt rethrows its error. -/
lemma retryGo_succ_last {α : Type} {op : Nat → Except JsError α} {retries i n : Nat}
    {e : JsError} (h : op i = .error e) (h4 : is4xx e = false) (hl : i = retries - 1) :
    retryGo op retries i (n + 1) = ⟨.error (some e), 1, []⟩ := by
  subst hl
  simp [retryGo, h, h4]

/-- Unfolding: a retryable failure backs off `2^i` seconds and continues. -/
lemma retryGo_succ_cont {α : Type} {op : Nat → Except JsError α} {retries i n : Nat}
    {e : JsError} (h : op i = .error e) (h4 : is4xx e = false) (hl : i ≠ retries - 1) :
    retryGo op retries i (n + 1) =
      ⟨(retryGo op retries (i + 1) n).result, (retryGo op retries (i + 1) n).attempts + 1,
       ((2 : ℚ) ^ i * 1000) :: (retryGo op retries (i + 1) n).waits⟩ := by
  simp [retryGo, h, h4, hl]

/-- The loop performs at most `fuel` attempts. -/
lemma retryGo_attempts_le {α : Type} (op : Nat → Except JsError α) (retries : Nat) :
    ∀ (fuel i : Nat), (retryGo op retries i fuel).attempts ≤ fuel := by
  intro fuel
  induction fuel with
  | zero => intro i; simp [retryGo_zero]
  | succ n ih =>
    intro i
    cases hop : op i with
    | ok a => rw [retryGo_succ_ok hop]; exact Nat.le_add_left 1 n
    | error e =>
      cases h4 : is4xx e with
      | true => rw [retryGo_succ_4xx hop h4]; exact Nat.le_add_left 1 n
      | false =>
        by_cases hl : i = retries - 1
        · rw [retryGo_succ_last hop h4 hl]; exact Nat.le_add_left 1 n
        · rw [retryGo_succ_cont hop h4 hl]
          exact Nat.succ_le_succ (ih (i + 1))

/-- With fuel the loop performs at least one attempt. -/
lemma retryGo_attempts_pos {α : Type} (op : Nat → Except JsError α) (retries i n : Nat) :
    1 ≤ (retryGo op retries i (n + 1)).attempts := by
  cases hop : op i with
  | ok a => rw [retryGo_succ_ok hop]
  | error e =>
    cases h4 : is4xx e with
    | true => rw [retryGo_succ_4xx hop h4]
    | false =>
      by_cases hl : i = retries - 1
      · rw [retryGo_succ_last hop h4 hl]
      · rw [retryGo_succ_cont hop h4 hl]
        exact Nat.le_add_left 1 _

/-- A 4xx failure that is reached ends the loop immediately with that error. -/
lemma retryGo_4xx {α : Type} (op : Nat → Except JsError α) (retries : Nat) :
    ∀ (fuel i j : Nat) (e : JsError), i ≤ j → op j = .error e → is4xx e = true →
      j < i + (retryGo op retries i fuel).attempts →
      i + (retryGo op retries i fuel).attempts = j + 1 ∧
        (retryGo op retries i fuel).result = .error (some e) := by
  intro fuel
  induction fuel with
  | zero =>
    intro i j e hij hop h4 hlt
    rw [retryGo_zero] at hlt
    have hlt2 : j < i + 0 := hlt
    omega
  | succ n ih =>
    intro i j e hij hop h4 hlt
    cases hopi : op i with
    | ok a =>
      rw [retryGo_succ_ok hopi] at hlt
      have hlt2 : j < i + 1 := hlt
      have hji : j = i := by omega
      subst hji
      rw [hop] at hopi
      exact absurd hopi (by simp)
    | error e0 =>
      by_cases hji : j = i
      · subst hji
        rw [hop] at hopi
        injection hopi with he
        subst he
        rw [retryGo_succ_4xx hop h4]
        exact ⟨rfl, rfl⟩
      · have hij1 : i + 1 ≤ j := by omega
        cases h40 : is4xx e0 with
        | true =>
          rw [retryGo_succ_4xx hopi h40] at hlt
          have hlt2 : j < i + 1 := hlt
          omega
        | false =>
          by_cases hl : i = retries - 1
          · rw [retryGo_succ_last hopi h40 hl] at hlt
            have hlt2 : j < i + 1 := hlt
            omega
          · rw [retryGo_succ_cont hopi h40 hl] at hlt ⊢
            have hlt2 : j < i + ((retryGo op retries (i + 1) n).attempts + 1) := hlt
            have hrec := ih (i + 1) j e hij1 hop h4 (by omega)
            refine ⟨?_, hrec.2⟩
            show i + ((retryGo op retries (i + 1) n).attempts + 1) = j + 1
            omega

/-- The backoff delays are `2^0, 2^1, …` seconds (in ms), one per non-final
attempt, provided the loop is entered with the invariant `i + fuel = retries`
that `retryWithBackoff` establishes. -/
lemma retryGo_waits {α : Type} (op : Nat → Except JsError α) (retries : Nat) :
    ∀ (fuel i : Nat), i + fuel = retries →
      (retryGo op retries i fuel).waits =
        (List.range ((retryGo op retries i fuel).attempts - 1)).map
          (fun k => ((2 : ℚ) ^ (i + k)) * 1000) := by
  intro fuel
  induction fuel with
  | zero => intro i hinv; rw [retryGo_zero]; simp
  | succ n ih =>
    intro i hinv
    cases hop : op i with
    | ok a => rw [retryGo_succ_ok hop]; simp
    | error e =>
      cases h4 : is4xx e with
      | true => rw [retryGo_succ_4xx hop h4]; simp
      | false =>
        by_cases hl : i = retries - 1
        · rw [retryGo_succ_last hop h4 hl]; simp
        · rw [retryGo_succ_cont hop h4 hl]
          have hn : 1 ≤ n := by omega
          obtain ⟨m, hm⟩ : ∃ m, n = m + 1 := ⟨n - 1, by omega⟩
          subst hm
          have hpos := retryGo_attempts_pos op retries (i + 1) m
          have hrec := ih (i + 1) (by omega)
          obtain ⟨t, ht⟩ : ∃ t, (retryGo op retries (i + 1) (m + 1)).attempts = t + 1 :=
            ⟨(retryGo op retries (i + 1) (m + 1)).attempts - 1, by omega⟩
          show ((2 : ℚ) ^ i * 1000) :: (retryGo op retries (i + 1) (m + 1)).waits =
            (List.range ((retryGo op retries (i + 1) (m + 1)).attempts + 1 - 1)).map
              (fun k => ((2 : ℚ) ^ (i + k)) * 1000)
          rw [hrec, ht]
          simp only [Nat.add_sub_cancel, List.range_succ_eq_map, List.map_cons, List.map_map]
          congr 1
          apply List.map_congr_left
          intro a _
          simp only [Function.comp_apply]
          congr 2
          omega

/-- `maxRetries || 3` is always positive. -/
lemma resolveMaxRetries_pos {α : Type} (cfg : Config α) :
    ∃ m, resolveMaxRetries cfg = m + 1 := by
  rw [resolveMaxRetries]
  split
  · exact ⟨2, rfl⟩
  · exact ⟨cfg.maxRetries - 1, by omega⟩

/-- With neither a per-call `maxCost` nor a configured `costLimit`, the cost
gate never fires. -/
lemma costGate_none {α : Type} (cfg : Config α) (opts : WrapperOpts) (model : String)
    (messages : List Message) (hmc : opts.maxCost = none) (hcl : cfg.costLimit = none) :
    costGate cfg opts model messages = false := by
  simp [costGate, hmc, hcl, jsTruthyNum]

/-- A get on the empty cache misses. -/
lemma getFromCache_nil {α : Type} (k : String) (now : ℚ) :
    getFromCache ([] : Cache α) k now = (none, []) := rfl

/-- After `Map.delete` the key is gone. -/
lemma cacheLookup_erase {α : Type} (c : Cache α) (k : String) :
    cacheLookup (cacheErase c k) k = none := by
  rw [cacheLookup, Option.map_eq_none', List.find?_eq_none]
  intro x hx
  have hmem := List.of_mem_filter hx
  simp only [bne_iff_ne, ne_eq] at hmem
  simp [hmem]

/-- After `Map.set` the key maps to the new entry. -/
lemma cacheLookup_set_self {α : Type} (c : Cache α) (k : String) (e : CacheEntry α) :
    cacheLookup (cacheSetEntry c k e) k = some e := by
  rw [cacheSetEntry]
  by_cases h : c.any (fun p => p.1 == k)
  · rw [if_pos h]
    induction c with
    | nil => simp at h
    | cons p rest ih =>
      by_cases hp : p.1 = k
      · simp [cacheLookup, List.find?, hp]
      · have hne : (p.1 == k) = false := by simp [hp]
        simp only [List.any_cons, hne, Bool.false_or] at h
        simp only [List.map_cons, if_neg (by simp [hp] : ¬(p.1 == k) = true)]
        rw [cacheLookup] at ih ⊢
        simp only [List.find?_cons, hne] at ih ⊢
        exact ih h
  · rw [if_neg h]
    induction c with
    | nil => simp [cacheLookup, List.find?]
    | cons p rest ih =>
      simp only [List.any_cons, Bool.or_eq_true, not_or] at h
      have hne : (p.1 == k) = false := by
        cases hb : (p.1 == k) with
        | true => exact absurd hb h.1
        | false => rfl
      simp only [List.cons_append]
      rw [cacheLookup]
      simp only [List.find?_cons, hne]
      rw [cacheLookup] at ih
      exact ih (by simpa using h.2)

/-- The pre-flooring token count is never negative. -/
lemma inner_tokens_nonneg (messages : List Message) :
    0 ≤ ⌈(((joinedContents messages).length : ℚ) / 4)⌉ + 4 * (messages.length : ℤ) := by
  have h1 : (0 : ℤ) ≤ ⌈(((joinedContents messages).length : ℚ) / 4)⌉ :=
    Int.ceil_nonneg (by positivity)
  omega

/-- Flooring the input-token count before or after the `× 0.3` scaling gives
the same output-token count, because the pre-floor count is a nonnegative
integer. -/
lemma outTok_max (inner : ℤ) (h0 : 0 ≤ inner) :
    max ⌈((inner : ℚ)) * (3/10)⌉ 1 = max 1 ⌈(((max 1 inner : ℤ) : ℚ)) * (3/10)⌉ := by
  rcases eq_or_lt_of_le h0 with h | h1
  · rw [← h]
    norm_num
    rw [show ⌈((3 : ℚ)/10)⌉ = 1 from by rw [Int.ceil_eq_iff]; norm_num]
  · rw [max_eq_right (by omega : (1 : ℤ) ≤ inner), max_comm]

/-- The embedded input-token count matches the amended formula. -/
lemma estimateTokens_false_eq (messages : List Message) :
    estimateTokens messages false = ((specAmendedInputTokens messages : ℤ) : ℚ) := by
  simp only [estimateTokens, specAmendedInputTokens, if_neg Bool.false_ne_true]
  push_cast
  rw [max_comm]

/-- The embedded output-token count matches the amended formula. -/
lemma estimateTokens_true_eq (messages : List Message) :
    estimateTokens messages true = ((specAmendedOutputTokens messages : ℤ) : ℚ) := by
  simp only [estimateTokens, specAmendedOutputTokens, specAmendedInputTokens, if_true]
  exact_mod_cast congrArg (fun z : ℤ => ((z : ℚ)))
    (outTok_max _ (inner_tokens_nonneg messages))

/-- First-match pricing over a table of nonnegative prices is nonnegative. -/
lemma firstPricing_nonneg (table : List (String × ℚ × ℚ))
    (h : ∀ e ∈ table, 0 ≤ e.2.1 ∧ 0 ≤ e.2.2) (m : String) :
    0 ≤ (firstPricing table m).1 ∧ 0 ≤ (firstPricing table m).2 := by
  induction table with
  | nil => simp [firstPricing]
  | cons e rest ih =>
    obtain ⟨k, pIn, pOut⟩ := e
    simp only [firstPricing]
    split
    · exact h ⟨k, pIn, pOut⟩ (List.mem_cons_self _ _)
    · exact ih (fun x hx => h x (List.mem_cons_of_mem _ hx))

/-- Every price the table can give (default included) is nonnegative. -/
lemma getModelPricing_nonneg (m : String) :
    0 ≤ (getModelPricing m).1 ∧ 0 ≤ (getModelPricing m).2 := by
  apply firstPricing_nonneg
  intro e he
  fin_cases he <;> norm_num

/-- Token estimates are at least 1, so nonnegative. -/
lemma estimateTokens_nonneg (messages : List Message) (b : Bool) :
    0 ≤ estimateTokens messages b := by
  have h : (1 : ℚ) ≤ estimateTokens messages b := by
    simp only [estimateTokens]
    exact le_max_right _ _
  linarith

/-- The wrapped OpenAI call phase against an always-400 provider: one
attempt, no fallbacks, the error propagated. -/
lemma openaiCallPhase_4xx (cfg : Config Resp)
    (provider : Nat → String → Except JsError Resp) (originalModel : String)
    (params3 : CreateParams) (opts : WrapperOpts) (cache1 : Cache Resp) (now : ℚ)
    (e : JsError) (hp : ∀ n m, provider n m = .error e) (hs : e.status = some 400) :
    openaiCallPhase cfg provider originalModel params3 opts cache1 now =
      ⟨.error (.apiError (some e)), [params3.model], cache1⟩ := by
  obtain ⟨m, hm⟩ := resolveMaxRetries_pos cfg
  have h4 : is4xx e = true := by simp [is4xx, hs]
  have hstf : shouldTryFallback (some e) = false := by simp [shouldTryFallback, hs]
  simp only [openaiCallPhase, retryWithBackoff, hm]
  rw [retryGo_succ_4xx (hp 0 params3.model) h4]
  simp [hstf]

/-- The call phase when the very first provider attempt succeeds. -/
lemma openaiCallPhase_ok0 (cfg : Config Resp)
    (provider : Nat → String → Except JsError Resp) (originalModel : String)
    (params3 : CreateParams) (opts : WrapperOpts) (cache1 : Cache Resp) (now : ℚ)
    (r : Resp) (hok : provider 0 params3.model = .ok r) :
    openaiCallPhase cfg provider originalModel params3 opts cache1 now =
      openaiSuccess cfg provider originalModel params3 opts cache1 now r
        params3.model [params3.model] := by
  obtain ⟨m, hm⟩ := resolveMaxRetries_pos cfg
  simp only [openaiCallPhase, retryWithBackoff, hm]
  rw [retryGo_succ_ok hok]
  rfl

/-- The success phase when the quality gate fires: one re-issue against the
original model, whose (after-middleware) result is returned unchanged. -/
lemma openaiSuccess_gateFires (cfg : Config Resp)
    (provider : Nat → String → Except JsError Resp) (originalModel : String)
    (params3 : CreateParams) (opts : WrapperOpts) (cache1 : Cache Resp) (now : ℚ)
    (r r2 : Resp) (usedModel : String) (calls : List String)
    (hma : cfg.middlewareAfter = [])
    (hne : originalModel ≠ usedModel)
    (hscore : qualityScoreOf cfg (respText r) (jsonMessages params3.messages) < 7/10)
    (hok2 : provider calls.length originalModel = .ok r2) :
    openaiSuccess cfg provider originalModel params3 opts cache1 now r usedModel calls =
      ⟨.ok r2, calls ++ [originalModel], cache1⟩ := by
  have hmw : ∀ x : Resp, applyAfterMW cfg.middlewareAfter x = x := by
    intro x
    rw [hma]
    rfl
  simp only [openaiSuccess, hmw]
  rw [if_pos (by simp [bne_iff_ne, hne] : (originalModel != usedModel) = true)]
  rw [if_pos hscore, hok2]

end CostLens

/-! ## Claim theorems -/

open CostLens

/-- C3: `retryWithBackoff(operation, maxAttempts)` attempts the operation at
most `maxAttempts` times (the constructor default being 3); an error whose
status code is in `[400,500)` is rethrown immediately — the attempt it
occurred on is the last one and its error is the outcome; after each
non-final failed attempt the loop waits `2^attemptIndex` seconds
(`2^k * 1000` ms for `k = 0, 1, …`); and an operation that rejects once with
status 500 and then succeeds is attempted exactly twice and resolves with the
success value. -/
theorem retryWithBackoff_contract :
    (∀ (α : Type) (op : Nat → Except JsError α) (retries : Nat),
       (retryWithBackoff op retries).attempts ≤ retries) ∧
    (∀ (α : Type) (op : Nat → Except JsError α) (retries j s : Nat) (e : JsError),
       op j = .error e → e.status = some s → 400 ≤ s → s < 500 →
       j < (retryWithBackoff op retries).attempts →
       (retryWithBackoff op retries).attempts = j + 1 ∧
         (retryWithBackoff op retries).result = .error (some e)) ∧
    (∀ (α : Type) (op : Nat → Except JsError α) (retries : Nat),
       (retryWithBackoff op retries).waits =
         (List.range ((retryWithBackoff op retries).attempts - 1)).map
           (fun k => ((2 : ℚ) ^ k) * 1000)) ∧
    ((defaultConfig Resp).maxRetries = 3 ∧
      resolveMaxRetries (defaultConfig Resp) = 3) ∧
    (∀ (α : Type) (op : Nat → Except JsError α) (retries : Nat) (e : JsError) (v : α),
       2 ≤ retries → op 0 = .error e → e.status = some 500 → op 1 = .ok v →
       (retryWithBackoff op retries).result = .ok v ∧
         (retryWithBackoff op retries).attempts = 2) := by
  refine ⟨?_, ?_, ?_, ⟨rfl, rfl⟩, ?_⟩
  · intro α op retries
    exact retryGo_attempts_le op retries retries 0
  · intro α op retries j s e hop hst h4a h4b hlt
    have h4 : is4xx e = true := by
      simp [is4xx, hst]
      omega
    simp only [retryWithBackoff] at hlt ⊢
    have h := retryGo_4xx op retries retries 0 j e (Nat.zero_le j) hop h4 (by omega)
    exact ⟨by omega, h.2⟩
  · intro α op retries
    simp only [retryWithBackoff]
    rw [retryGo_waits op retries retries 0 (by omega)]
    apply List.map_congr_left
    intro k _
    norm_num
  · intro α op retries e v hret hop0 hst hop1
    obtain ⟨m, rfl⟩ : ∃ m, retries = m + 2 := ⟨retries - 2, by omega⟩
    have h4 : is4xx e = false := by simp [is4xx, hst]
    simp only [retryWithBackoff]
    rw [retryGo_succ_cont hop0 h4 (by omega : (0 : ℕ) ≠ (m + 2) - 1)]
    rw [retryGo_succ_ok hop1]
    exact ⟨rfl, rfl⟩

/-- Witness for C3: a fail-500-then-succeed operation is attempted exactly
twice and resolves with the success value; an always-400 operation is
attempted exactly once and its error is rethrown. -/
theorem retryWithBackoff_contract_witness :
    (retryWithBackoff
        (fun i => if i = 0 then (Except.error ⟨some 500, 0⟩ : Except JsError Nat)
                  else .ok 42) 3).result = .ok 42 ∧
    (retryWithBackoff
        (fun i => if i = 0 then (Except.error ⟨some 500, 0⟩ : Except JsError Nat)
                  else .ok 42) 3).attempts = 2 ∧
    (retryWithBackoff
        (fun _ => (Except.error ⟨some 400, 7⟩ : Except JsError Nat)) 3).attempts = 1 ∧
    (retryWithBackoff
        (fun _ => (Except.error ⟨some 400, 7⟩ : Except JsError Nat)) 3).result =
      .error (some ⟨some 400, 7⟩) := by
  have h5 := retryWithBackoff_contract.2.2.2.2 Nat
    (fun i => if i = 0 then (Except.error ⟨some 500, 0⟩ : Except JsError Nat) else .ok 42)
    3 ⟨some 500, 0⟩ 42 (by omega) rfl rfl rfl
  have h4 := retryWithBackoff_contract.2.1 Nat
    (fun _ => (Except.error ⟨some 400, 7⟩ : Except JsError Nat)) 3 0 400 ⟨some 400, 7⟩
    rfl rfl (by omega) (by omega) (by decide)
  exact ⟨h5.1, h5.2, h4.1, h4.2⟩

/-- C4 (counterexample): the claimed token formula disagrees with the code.
On the empty message list the code floors the input-token count at 1 while
the claim's formula gives 0; on two messages the code counts the space
separator the `join(' ')` inserts while "total character count" does not. -/
theorem estimateCost_claim_formula_counterexample :
    CostLens.estimateCost "gpt-4" [] ≠ specClaimEstimateCost "gpt-4" [] ∧
    CostLens.estimateCost "gpt-4" [⟨"user", "ab"⟩, ⟨"user", "cd"⟩]
      ≠ specClaimEstimateCost "gpt-4" [⟨"user", "ab"⟩, ⟨"user", "cd"⟩] := by
  constructor
  · have hc0 : ⌈((0 : ℚ) / 4)⌉ = 0 := by norm_num
    simp only [estimateCost, estimateTokens, specClaimEstimateCost, specClaimInputTokens,
      specClaimOutputTokens, joinedContents, joinWith, List.map, List.sum]
    norm_num +decide [hc0, max_def, getModelPricing, firstPricing, pricingTable, jsIncludes,
      show ⌈((3 : ℚ)/10)⌉ = 1 from by rw [Int.ceil_eq_iff]; norm_num]
  · simp only [estimateCost, estimateTokens, specClaimEstimateCost, specClaimInputTokens,
      specClaimOutputTokens, joinedContents, joinWith, List.map, List.sum]
    norm_num +decide [max_def, getModelPricing, firstPricing, pricingTable, jsIncludes,
      show "ab".length = 2 from by decide, show "cd".length = 2 from by decide,
      show " ".length = 1 from by decide,
      show ⌈((5 : ℚ)/4)⌉ = 2 from by rw [Int.ceil_eq_iff]; norm_num,
      show ⌈((1 : ℚ))⌉ = 1 from by norm_num,
      show ⌈((3 : ℚ))⌉ = 3 from by norm_num,
      show ⌈((27 : ℚ)/10)⌉ = 3 from by rw [Int.ceil_eq_iff]; norm_num]

/-- C4 (amended): `estimateCost` equals the amended formula — input tokens
`max(1, ⌈L/4⌉ + 4·messageCount)` with `L` the length of the contents joined
by single spaces, output tokens `⌈inputTokens × 0.3⌉` floored at 1, cost
`in/10⁶·inPrice + out/10⁶·outPrice` with first-substring-match pricing
defaulting to `{1.0, 1.0}` — and is always nonnegative (finiteness is
automatic in the exact rational model). -/
theorem estimateCost_amended_contract (model : String) (messages : List Message) :
    CostLens.estimateCost model messages = specAmendedEstimateCost model messages ∧
    0 ≤ CostLens.estimateCost model messages := by
  constructor
  · simp only [CostLens.estimateCost, specAmendedEstimateCost,
      CostLens.estimateTokens_false_eq, CostLens.estimateTokens_true_eq]
  · have h1 := CostLens.estimateTokens_nonneg messages false
    have h2 := CostLens.estimateTokens_nonneg messages true
    have h3 := CostLens.getModelPricing_nonneg model
    simp only [CostLens.estimateCost]
    have ha := mul_nonneg (div_nonneg h1 (by norm_num : (0:ℚ) ≤ 1000000)) h3.1
    have hb := mul_nonneg (div_nonneg h2 (by norm_num : (0:ℚ) ≤ 1000000)) h3.2
    linarith

/-- C5: under the default configuration,
`selectOptimalModel('gpt-4', [{role:'user', content:'Hi'}])` returns
`'gpt-3.5-turbo'`, and `calculateSavings` for the same request reports a
savings percentage strictly above 90 (exactly 2645/27 ≈ 97.96). -/
theorem simple_routing_and_savings :
    CostLens.selectOptimalModel (defaultConfig Resp) "gpt-4" [⟨"user", "Hi"⟩]
      = "gpt-3.5-turbo" ∧
    90 < (CostLens.calculateSavings (defaultConfig Resp) "gpt-4"
      [⟨"user", "Hi"⟩]).savingsPercentage := by
  constructor
  · decide
  · have hsel : selectOptimalModel (defaultConfig Resp) "gpt-4" [⟨"user", "Hi"⟩]
        = "gpt-3.5-turbo" := by decide
    have h0 : "Hi".length = 2 := by decide
    have hc1 : ⌈((1 : ℚ))/2⌉ = 1 := by rw [Int.ceil_eq_iff]; norm_num
    have hc2 : ⌈((3 : ℚ))/2⌉ = 2 := by rw [Int.ceil_eq_iff]; norm_num
    simp only [calculateSavings, hsel, estimateCost, estimateTokens, joinedContents,
      joinWith, List.map]
    norm_num +decide [h0, hc1, hc2, max_def, getModelPricing, firstPricing, pricingTable,
      jsIncludes]

/-- C6: `QualityDetector.shouldRoute` follows the four-branch policy, the
branches taken in order: complexity above 0.8 or a criticality keyword keeps
the requested model at confidence 0.9; complexity below 0.3 routes to the
task-type-specific cheap model at confidence 0.85; complexity in [0.3, 0.6)
answers at confidence 0.8 with the medium-tier model, routing exactly when
that model differs from the requested one; otherwise it keeps the requested
model at confidence 0.7. -/
theorem shouldRoute_policy_contract (rm : String) (msgs : List Message) (th : ℚ) :
    ((8/10 < QualityDetector.estimateComplexity msgs ∨
        QualityDetector.isCritical msgs = true) →
       (QualityDetector.shouldRoute rm msgs th).shouldRoute = false ∧
       (QualityDetector.shouldRoute rm msgs th).targetModel = rm ∧
       (QualityDetector.shouldRoute rm msgs th).confidence = 9/10) ∧
    (¬(8/10 < QualityDetector.estimateComplexity msgs ∨
        QualityDetector.isCritical msgs = true) →
       QualityDetector.estimateComplexity msgs < 3/10 →
       (QualityDetector.shouldRoute rm msgs th).shouldRoute = true ∧
       (QualityDetector.shouldRoute rm msgs th).targetModel =
         QualityDetector.getOptimalSimpleModel rm (QualityDetector.detectTaskType msgs) ∧
       (QualityDetector.shouldRoute rm msgs th).confidence = 85/100) ∧
    (¬(8/10 < QualityDetector.estimateComplexity msgs ∨
        QualityDetector.isCritical msgs = true) →
       ¬(QualityDetector.estimateComplexity msgs < 3/10) →
       QualityDetector.estimateComplexity msgs < 6/10 →
       (QualityDetector.shouldRoute rm msgs th).confidence = 8/10 ∧
       (QualityDetector.shouldRoute rm msgs th).targetModel =
         QualityDetector.getOptimalMediumModel rm (QualityDetector.detectTaskType msgs) ∧
       ((QualityDetector.shouldRoute rm msgs th).shouldRoute = true ↔
         QualityDetector.getOptimalMediumModel rm (QualityDetector.detectTaskType msgs)
           ≠ rm)) ∧
    (¬(8/10 < QualityDetector.estimateComplexity msgs ∨
        QualityDetector.isCritical msgs = true) →
       ¬(QualityDetector.estimateComplexity msgs < 3/10) →
       ¬(QualityDetector.estimateComplexity msgs < 6/10) →
       (QualityDetector.shouldRoute rm msgs th).shouldRoute = false ∧
       (QualityDetector.shouldRoute rm msgs th).targetModel = rm ∧
       (QualityDetector.shouldRoute rm msgs th).confidence = 7/10) := by
  refine ⟨?_, ?_, ?_, ?_⟩
  · intro h1
    simp only [QualityDetector.shouldRoute, if_pos h1]
    exact ⟨trivial, trivial, trivial⟩
  · intro h1 h2
    simp only [QualityDetector.shouldRoute, if_neg h1, if_pos h2]
    exact ⟨trivial, trivial, trivial⟩
  · intro h1 h2 h3
    simp only [QualityDetector.shouldRoute, if_neg h1, if_neg h2, if_pos h3]
    simp [bne_iff_ne]
  · intro h1 h2 h3
    simp only [QualityDetector.shouldRoute, if_neg h1, if_neg h2, if_neg h3]
    exact ⟨trivial, trivial, trivial⟩

/-- Witness for C6: the content "medical" is a criticality keyword, and
`shouldRoute('gpt-4', …)` returns the unchanged model with confidence 0.9. -/
theorem shouldRoute_policy_contract_witness :
    QualityDetector.isCritical [⟨"user", "medical"⟩] = true ∧
    (QualityDetector.shouldRoute "gpt-4" [⟨"user", "medical"⟩] (75/100)).shouldRoute
      = false ∧
    (QualityDetector.shouldRoute "gpt-4" [⟨"user", "medical"⟩] (75/100)).targetModel
      = "gpt-4" ∧
    (QualityDetector.shouldRoute "gpt-4" [⟨"user", "medical"⟩] (75/100)).confidence
      = 9/10 := by
  have h := (shouldRoute_policy_contract "gpt-4" [⟨"user", "medical"⟩] (75/100)).1
    (Or.inr (by decide))
  exact ⟨by decide, h.1, h.2.1, h.2.2⟩

/-- C9 (code bug): the code does not disable tracking after a 401 response.
A first tracking attempt that receives HTTP 401 invokes the sink, merely
increments the circuit-breaker failure count, and a second attempt invokes
the sink again — contradicting the spec (and the code's own log message
"tracking disabled"), which promise that 401/403 permanently disables
tracking for the process. -/
theorem tracking_not_disabled_after_401 :
    (trackRun ⟨0, 0⟩ 1000 (.httpError 401)).invoked = true ∧
    (trackRun ⟨0, 0⟩ 1000 (.httpError 401)).state = ⟨1, 1000⟩ ∧
    (trackRun (trackRun ⟨0, 0⟩ 1000 (.httpError 401)).state 2000
      (.httpError 401)).invoked = true := by
  have hd : isApiDown ⟨0, 0⟩ 1000 = false := by
    simp [isApiDown, circuitBreakerThreshold]
  have h1 : trackRun ⟨0, 0⟩ 1000 (.httpError 401) = ⟨⟨1, 1000⟩, true⟩ := by
    simp [trackRun, hd]
  have hd2 : isApiDown ⟨1, 1000⟩ 2000 = false := by
    simp [isApiDown, circuitBreakerThreshold]
  refine ⟨by rw [h1], by rw [h1], ?_⟩
  rw [h1]
  simp [trackRun, hd2]

/-- C10: `getCacheKey` replaces any falsy temperature by the 0.7 default, so
temperature 0, temperature 0.7 and a missing temperature all produce the same
cache key for otherwise identical requests. -/
theorem cacheKey_temperature_falsy_default (provider model : String)
    (msgs : Option (List Message)) (mt : Option ℚ) :
    getCacheKey provider ⟨model, msgs, some 0, mt⟩ =
      getCacheKey provider ⟨model, msgs, some (7/10), mt⟩ ∧
    getCacheKey provider ⟨model, msgs, some 0, mt⟩ =
      getCacheKey provider ⟨model, msgs, none, mt⟩ := by
  constructor <;> norm_num [getCacheKey, jsOrDefaultTemp]

/-- C7: the cache contract.  A get on an absent key misses and leaves the
cache unchanged; a get finding an entry with `now - storedAt > ttl` deletes
it and misses; otherwise the get returns the stored value and rewrites the
entry with `lastAccessed = now`.  A set at or above the 1000-entry ceiling
first evicts the `evictCount = 200` entries (20% of the ceiling) that come
first in the stable `lastAccessed` ordering; below the ceiling it just
inserts; the TTL default used when the caller passes none is 3600 s
(3600000 ms). -/
theorem cache_get_set_contract (α : Type) :
    (∀ (c : Cache α) (k : String) (now : ℚ),
       cacheLookup c k = none → getFromCache c k now = (none, c)) ∧
    (∀ (c : Cache α) (k : String) (now : ℚ) (e : CacheEntry α),
       cacheLookup c k = some e → e.ttl < now - e.timestamp →
       getFromCache c k now = (none, cacheErase c k) ∧
         cacheLookup (getFromCache c k now).2 k = none) ∧
    (∀ (c : Cache α) (k : String) (now : ℚ) (e : CacheEntry α),
       cacheLookup c k = some e → ¬(e.ttl < now - e.timestamp) →
       getFromCache c k now =
         (some e.result, cacheSetEntry c k ⟨e.result, e.timestamp, e.ttl, some now⟩) ∧
         cacheLookup (getFromCache c k now).2 k =
           some ⟨e.result, e.timestamp, e.ttl, some now⟩) ∧
    (∀ (c : Cache α) (k : String) (v : α) (ttl now : ℚ),
       maxCacheSize ≤ c.length →
       setCache c k v ttl now =
         cacheSetEntry
           (c.filter (fun p =>
             !((((c.mergeSort lruOrder).take evictCount).map (fun q => q.1)).contains p.1)))
           k ⟨v, now, ttl, some now⟩) ∧
    (∀ (c : Cache α) (k : String) (v : α) (ttl now : ℚ),
       c.length < maxCacheSize →
       setCache c k v ttl now = cacheSetEntry c k ⟨v, now, ttl, some now⟩) ∧
    (maxCacheSize = 1000 ∧ evictCount = 200 ∧ defaultCacheTTL = 3600 * 1000 ∧
      ∀ (c : Cache α) (k : String) (v : α) (now : ℚ),
        setCacheDefault c k v now = setCache c k v (3600 * 1000) now) := by
  refine ⟨?_, ?_, ?_, ?_, ?_, rfl, ?_, by norm_num [defaultCacheTTL], ?_⟩
  · intro c k now h
    simp [getFromCache, h]
  · intro c k now e h hexp
    have hmain : getFromCache c k now = (none, cacheErase c k) := by
      simp [getFromCache, h, if_pos hexp]
    refine ⟨hmain, ?_⟩
    rw [hmain]
    exact cacheLookup_erase c k
  · intro c k now e h hexp
    have hmain : getFromCache c k now =
        (some e.result, cacheSetEntry c k ⟨e.result, e.timestamp, e.ttl, some now⟩) := by
      simp [getFromCache, h, if_neg hexp]
    refine ⟨hmain, ?_⟩
    rw [hmain]
    exact cacheLookup_set_self c k _
  · intro c k v ttl now h
    simp [setCache, if_pos h]
  · intro c k v ttl now h
    simp [setCache, if_neg (by omega : ¬ maxCacheSize ≤ c.length)]
  · rw [evictCount, maxCacheSize]
    norm_num
    rfl
  · intro c k v now
    rw [setCacheDefault]
    norm_num [defaultCacheTTL]

/-- Witness for C7: on a one-entry cache, a get at `now = 11` of an entry
stored at 0 with ttl 10 expires it; a set below the ceiling just inserts. -/
theorem cache_get_set_contract_witness :
    cacheLookup [("k", (⟨5, 0, 10, none⟩ : CacheEntry Nat))] "k" = some ⟨5, 0, 10, none⟩ ∧
    (10 : ℚ) < 11 - 0 ∧
    getFromCache [("k", (⟨5, 0, 10, none⟩ : CacheEntry Nat))] "k" 11 =
      (none, cacheErase [("k", (⟨5, 0, 10, none⟩ : CacheEntry Nat))] "k") ∧
    setCache [("k", (⟨5, 0, 10, none⟩ : CacheEntry Nat))] "j" 7 50 100 =
      cacheSetEntry [("k", (⟨5, 0, 10, none⟩ : CacheEntry Nat))] "j"
        ⟨7, 100, 50, some 100⟩ := by
  refine ⟨rfl, by norm_num, ?_, ?_⟩
  · exact ((cache_get_set_contract Nat).2.1
      [("k", (⟨5, 0, 10, none⟩ : CacheEntry Nat))] "k" 11 ⟨5, 0, 10, none⟩ rfl
      (by norm_num)).1
  · exact (cache_get_set_contract Nat).2.2.2.2.1
      [("k", (⟨5, 0, 10, none⟩ : CacheEntry Nat))] "j" 7 50 100 (by decide)

/-- C8: the tracking circuit breaker.  While the consecutive-failure count
has reached the threshold (5) and the most recent failure is less than
60000 ms old, a tracking attempt does not invoke the sink and leaves the
state untouched; otherwise the sink is invoked, a success resets the failure
count to 0 (keeping the failure timestamp), and any failure increments the
count and stamps the failure time; attempts resume once 60 s have elapsed,
or after a single success resets the counter. -/
theorem circuit_breaker_contract :
    (∀ (s : BreakerState) (now : ℚ) (o : SinkOutcome),
       circuitBreakerThreshold ≤ s.apiFailureCount →
       now - s.lastApiFailure < circuitBreakerTimeout →
       trackRun s now o = ⟨s, false⟩) ∧
    (∀ (s : BreakerState) (now : ℚ) (o : SinkOutcome),
       isApiDown s now = false → (trackRun s now o).invoked = true) ∧
    (∀ (s : BreakerState) (now : ℚ),
       isApiDown s now = false →
       (trackRun s now .ok).state = ⟨0, s.lastApiFailure⟩) ∧
    (∀ (s : BreakerState) (now : ℚ) (o : SinkOutcome),
       isApiDown s now = false → o ≠ .ok →
       (trackRun s now o).state = ⟨s.apiFailureCount + 1, now⟩) ∧
    (∀ (s : BreakerState) (now : ℚ) (o : SinkOutcome),
       circuitBreakerTimeout ≤ now - s.lastApiFailure →
       (trackRun s now o).invoked = true) ∧
    (∀ (s : BreakerState) (now now2 : ℚ) (o2 : SinkOutcome),
       isApiDown s now = false →
       (trackRun (trackRun s now .ok).state now2 o2).invoked = true) ∧
    (circuitBreakerThreshold = 5 ∧ circuitBreakerTimeout = 60000) := by
  refine ⟨?_, ?_, ?_, ?_, ?_, ?_, rfl, rfl⟩
  · intro s now o h1 h2
    simp [trackRun, isApiDown, h1, h2]
  · intro s now o h
    cases o <;> simp [trackRun, h]
  · intro s now h
    simp [trackRun, h]
  · intro s now o h ho
    cases o with
    | ok => exact absurd rfl ho
    | httpError st => simp [trackRun, h]
    | netError => simp [trackRun, h]
  · intro s now o h
    have hd : isApiDown s now = false := by
      simp [isApiDown]
      intro _
      linarith
    cases o <;> simp [trackRun, hd]
  · intro s now now2 o2 h
    have h1 : (trackRun s now .ok).state = ⟨0, s.lastApiFailure⟩ := by simp [trackRun, h]
    rw [h1]
    have hd : isApiDown ⟨0, s.lastApiFailure⟩ now2 = false := by
      simp [isApiDown, circuitBreakerThreshold]
    cases o2 <;> simp [trackRun, hd]

/-- Witness for C8: with 5 consecutive failures, the last one 1000 ms ago,
a tracking attempt is a silent no-op; at 70000 ms (more than 60 s later) the
attempt invokes the sink again. -/
theorem circuit_breaker_contract_witness :
    trackRun ⟨5, 0⟩ 1000 .ok = ⟨⟨5, 0⟩, false⟩ ∧
    (trackRun ⟨5, 0⟩ 70000 .ok).invoked = true := by
  constructor
  · exact circuit_breaker_contract.1 ⟨5, 0⟩ 1000 .ok
      (by norm_num [circuitBreakerThreshold])
      (by norm_num [circuitBreakerTimeout])
  · exact circuit_breaker_contract.2.2.2.2.1 ⟨5, 0⟩ 70000 .ok
      (by norm_num [circuitBreakerTimeout])

/-- C1: when routing resolved a different model than requested, the first
provider attempt on the routed model succeeded, and the quality score of its
response — from the caller-injected validator when present, else the default
scorer (`qualityScoreOf` takes both paths) — is below 0.7, the wrapped OpenAI
call re-invokes the provider exactly once, with the originally requested
model, and returns that second result to the caller (the provider call list
is exactly `[routedModel, requestedModel]`, and nothing is cached). -/
theorem quality_gate_reissues_original_once (cfg : Config Resp)
    (optimizer : String → String) (provider : Nat → String → Except JsError Resp)
    (params : CreateParams) (opts : WrapperOpts) (now : ℚ) (r1 r2 : Resp)
    (hsr : cfg.smartRouting = true)
    (hao : cfg.autoOptimize = false)
    (hmb : cfg.middlewareBefore = [])
    (hma : cfg.middlewareAfter = [])
    (hmc : opts.maxCost = none) (hcl : cfg.costLimit = none)
    (hroute : selectOptimalModel cfg params.model params.messages ≠ params.model)
    (hok1 : provider 0 (selectOptimalModel cfg params.model params.messages) = .ok r1)
    (hscore : qualityScoreOf cfg (respText r1) (jsonMessages params.messages) < 7/10)
    (hok2 : provider 1 params.model = .ok r2) :
    openaiCreate cfg true optimizer none provider params opts [] now =
      ⟨.ok r2, [selectOptimalModel cfg params.model params.messages, params.model],
       []⟩ := by
  simp only [openaiCreate, hao, hsr, Bool.true_and, if_false, if_true, Bool.false_eq_true]
  rw [costGate_none _ _ _ _ hmc hcl]
  have hmwb : ∀ x : CreateParams, applyBeforeMW cfg.middlewareBefore x = x := by
    intro x
    rw [hmb]
    rfl
  cases hcond : (cfg.enableCache || jsTruthyNum opts.cacheTTL) <;>
    simp only [hcond, if_true, if_false, Bool.false_eq_true, getFromCache_nil] <;>
    cases hec : cfg.enableCache <;>
    simp only [hec, if_true, if_false, Bool.false_eq_true] <;>
    rw [hmwb] <;>
    rw [openaiCallPhase_ok0 cfg provider _ _ opts [] now r1 hok1] <;>
    exact openaiSuccess_gateFires cfg provider _ _ opts [] now r1 r2 _ _ hma
      (Ne.symm hroute) hscore hok2

/-- Witness for C1: with the default config plus an injected always-0
validator, `gpt-4` with content "Hi" routes to `gpt-3.5-turbo`, the gate
fires, and the wrapped call makes exactly the two provider calls
`[gpt-3.5-turbo, gpt-4]` and returns the second response. -/
theorem quality_gate_reissues_original_once_witness :
    selectOptimalModel qgwCfg "gpt-4" [⟨"user", "Hi"⟩] = "gpt-3.5-turbo" ∧
    qualityScoreOf qgwCfg (respText qgwRespA) (jsonMessages [⟨"user", "Hi"⟩]) < 7/10 ∧
    openaiCreate qgwCfg true id none qgwProvider
        ⟨"gpt-4", [⟨"user", "Hi"⟩], none, none⟩ noOpts [] 0 =
      ⟨.ok qgwRespB,
       [selectOptimalModel qgwCfg "gpt-4" [⟨"user", "Hi"⟩], "gpt-4"], []⟩ := by
  have hscore : qualityScoreOf qgwCfg (respText qgwRespA)
      (jsonMessages [⟨"user", "Hi"⟩]) < 7/10 := by
    norm_num [qualityScoreOf, qgwCfg]
  refine ⟨by decide, hscore, ?_⟩
  exact quality_gate_reissues_original_once qgwCfg id qgwProvider
    ⟨"gpt-4", [⟨"user", "Hi"⟩], none, none⟩ noOpts 0 qgwRespA qgwRespB
    rfl rfl rfl rfl rfl rfl (by decide) rfl hscore rfl

/-- C2 (counterexample): the claim fails for the Anthropic wrapper.  Under
the default configuration, a `messages.create` for `claude-3-opus` (routed to
`claude-3-haiku`) against a provider that always rejects with status 400
issues four provider attempts — one per model of
`[resolved model] ++ fallback chain` — rather than exactly one, before
rejecting with the 400 error. -/
theorem anthropic_create_400_four_attempts :
    (anthropicCreate (defaultConfig Resp) (fun _ _ => .error ⟨some 400, 3⟩)
      ⟨"claude-3-opus", [⟨"user", "Hello"⟩], none, none⟩ noOpts [] 0).calls.length = 4 ∧
    (anthropicCreate (defaultConfig Resp) (fun _ _ => .error ⟨some 400, 3⟩)
      ⟨"claude-3-opus", [⟨"user", "Hello"⟩], none, none⟩ noOpts [] 0).calls =
      ["claude-3-haiku", "gpt-3.5-turbo", "gemini-1.5-flash", "claude-3-sonnet"] ∧
    (anthropicCreate (defaultConfig Resp) (fun _ _ => .error ⟨some 400, 3⟩)
      ⟨"claude-3-opus", [⟨"user", "Hello"⟩], none, none⟩ noOpts [] 0).result =
      .error (.apiError (some ⟨some 400, 3⟩)) := by
  refine ⟨by decide, by decide, by rfl⟩

/-- C2 (amended): for every provider call that always rejects with an error
whose status is 400, a wrapped **OpenAI** `create` call (with an empty
in-memory cache, no remote-cache answer and no cost limit) issues exactly one
provider attempt — no retries and no fallback-model attempts — and rejects
with that same error.  (The Anthropic wrapper instead attempts each model of
the fallback chain once, as the counterexample shows.) -/
theorem openai_create_400_single_attempt (cfg : Config Resp) (routingEnabled : Bool)
    (optimizer : String → String) (provider : Nat → String → Except JsError Resp)
    (params : CreateParams) (opts : WrapperOpts) (now : ℚ) (e : JsError)
    (hp : ∀ n m, provider n m = .error e) (hs : e.status = some 400)
    (hmc : opts.maxCost = none) (hcl : cfg.costLimit = none) :
    (openaiCreate cfg routingEnabled optimizer none provider params opts [] now).result
      = .error (.apiError (some e)) ∧
    (openaiCreate cfg routingEnabled optimizer none provider params opts [] now).calls.length
      = 1 := by
  simp only [openaiCreate]
  rw [costGate_none _ _ _ _ hmc hcl]
  cases hcond : (cfg.enableCache || jsTruthyNum opts.cacheTTL) <;>
    simp only [hcond, if_true, if_false, Bool.false_eq_true, getFromCache_nil] <;>
    cases hec : cfg.enableCache <;>
    simp only [hec, if_true, if_false, Bool.false_eq_true] <;>
    rw [openaiCallPhase_4xx cfg provider _ _ opts [] now e hp hs] <;>
    exact ⟨rfl, rfl⟩

/-- Witness for C2 (amended): the default config, a provider constantly
rejecting with `{status: 400}`, and a `gpt-4` request: one attempt, the same
error propagated. -/
theorem openai_create_400_single_attempt_witness :
    (openaiCreate (defaultConfig Resp) true id none
      (fun _ _ => .error ⟨some 400, 7⟩)
      ⟨"gpt-4", [⟨"user", "Hi"⟩], none, none⟩ noOpts [] 0).result =
      .error (.apiError (some ⟨some 400, 7⟩)) ∧
    (openaiCreate (defaultConfig Resp) true id none
      (fun _ _ => .error ⟨some 400, 7⟩)
      ⟨"gpt-4", [⟨"user", "Hi"⟩], none, none⟩ noOpts [] 0).calls.length = 1 := by
  exact openai_create_400_single_attempt (defaultConfig Resp) true id
    (fun _ _ => .error ⟨some 400, 7⟩) ⟨"gpt-4", [⟨"user", "Hi"⟩], none, none⟩
    noOpts 0 ⟨some 400, 7⟩ (fun _ _ => rfl) rfl rfl rfl
